import Mathlib

/-!
Verification of the Dynamic Ad-Recommender Chatbot (`ad_recommender.py`)
against its natural-language specification.

The source is shallowly embedded: the orchestrator state (`buffer`,
`msg_cnt`) becomes an explicit state record, the two external services
(OpenAI chat completions and the SerpApi shopping search) become oracle
functions supplied per call, and Python exceptions become `Except` /
`Option` results.  Python string primitives used by the source
(`str.strip`, `str.lower`, `str.endswith`, `str.splitlines`,
`str.split(sep, 1)`, slicing) are modelled as pure functions over the
character data of Lean strings.
-/

/-- Python whitespace characters recognised by `str.strip()`. -/
def pyIsSpace (c : Char) : Bool :=
  c == ' ' || c == '\t' || c == '\n' || c == '\r' || c == '\x0b' || c == '\x0c'

/-- Python `s.strip()`: drop whitespace from both ends. -/
def pyStrip (s : String) : String :=
  (((s.data.dropWhile pyIsSpace).reverse.dropWhile pyIsSpace).reverse).asString

/-- Python `s.lower()` (ASCII letters, which is all the source compares). -/
def pyLower (s : String) : String :=
  (s.data.map Char.toLower).asString

/-- Python `s.endswith(suf)`. -/
def pyEndsWith (s suf : String) : Bool :=
  s.data.drop (s.data.length - suf.data.length) == suf.data

/-- Split a character list on a separator character (like `str.split(sep)`). -/
def splitOnChar (sep : Char) : List Char → List (List Char)
  | [] => [[]]
  | c :: cs =>
    match splitOnChar sep cs with
    | [] => [[]]
    | h :: t => if c = sep then [] :: h :: t else (c :: h) :: t

/-- Python `s.splitlines()` for newline-delimited text: no entry after a
trailing newline, and the empty string yields no lines. -/
def pySplitlines (s : String) : List String :=
  if s.data = [] then []
  else
    let parts := (splitOnChar '\n' s.data).map List.asString
    if s.data.getLast? = some '\n' then parts.dropLast else parts

/-- Python `s.split(":", 1)[1]`: the text after the first colon, or `none`
when there is no colon (in which case the Python indexing raises
`IndexError`). -/
def pyAfterColon : List Char → Option (List Char)
  | [] => none
  | c :: cs => if c = ':' then some cs else pyAfterColon cs

/-- Python `s[:160]`. -/
def pySlice160 (s : String) : String :=
  (s.data.take 160).asString

/-- Python `s[3:]`, used to strip the `"Q: "` / `"A: "` role markers. -/
def pyDrop3 (s : String) : String :=
  (s.data.drop 3).asString

/-- Python `a or b or ""` over two optional strings: the first *truthy*
(present and non-empty) value, else the empty string. -/
def pyOrElse (a b : Option String) : String :=
  match a with
  | some s => if s = "" then (match b with | some t => t | none => "") else s
  | none => match b with | some t => t | none => ""

/-! ## Data model -/

/-- One role-tagged message sent to the text-generation service. -/
structure Msg where
  role : String
  content : String
deriving DecidableEq

/-- Outcome of one call to the text-generation gateway (`_stream_chat`):
either the accumulated response text, or a raised transport error. -/
inductive GenResult where
  | ok (text : String)
  | err
deriving DecidableEq

/-- One entry of the SerpApi `shopping_results` list; every field the
source reads is optional (`dict.get`). -/
structure Entry where
  title : Option String := none
  link : Option String := none
  product_link : Option String := none
  snippet : Option String := none
  description : Option String := none
deriving DecidableEq

/-- A SerpApi response: a raised provider error / malformed payload, or a
(list of) shopping results (`ok []` also models a missing or empty
`shopping_results` key). -/
inductive SerpResponse where
  | error
  | ok (entries : List Entry)
deriving DecidableEq

/-- The Product Record built by `_shopping_search`. -/
structure Product where
  name : String
  link : String
  desc : String
deriving DecidableEq

/-- The orchestrator state owned by an `AdRecommender` instance. -/
structure AdState where
  buffer : List String
  msg_cnt : Nat
deriving DecidableEq

/-- The external services, as oracles for one `chat` call: the primary and
judge generations are functions of the exact messages the source sends,
the shopping search a function of the query. -/
structure CallOracle where
  primary : List Msg → GenResult
  judge : List Msg → GenResult
  shopping : String → SerpResponse

/-- Observable outcome of one `chat` call: the returned answer or the
propagated exception, the state of the instance afterwards, the snapshot
handed to the Coherence Judge (if the judge was invoked), and the query
handed to the Product Lookup (if it was invoked). -/
structure ChatResult where
  res : Except Unit String
  state : AdState
  snapshotUsed : Option String
  lookupQuery : Option String

/-! ## Configuration constants (source lines 29, 64-65) -/

def MAX_BUFFER_SIZE : Nat := 100

def TRIGGER_QS : Nat := 4

def SNAPSHOT_LINES : Nat := 7

/-! ## Coherence Judge (`AdRecommender._judge_topic`, source lines 72-94) -/

/-- The judge system instruction (source lines 73-79). -/
def judgeSysMsg : String :=
  "Determine whether the last 4 Q&A pairs share one topic and suggest a product or service.\n\n" ++
  "If yes, respond exactly:\nRELATED: yes\nTOPIC: <topic>\nP/S: <product>\n\n" ++
  "Else respond exactly:\nRELATED: no\nTOPIC: None\nP/S: None"

/-- The messages `_judge_topic` sends to the gateway (source lines 80-87):
the system instruction plus the snapshot primed with the literal fragment. -/
def judgeMsgs (snapshot : String) : List Msg :=
  [⟨"system", judgeSysMsg⟩, ⟨"user", snapshot ++ "\nRELATED:"⟩]

/-- The verdict parsing of `_judge_topic` (source lines 90-94).  `none`
models a raised `IndexError`: Python evaluates `lines[i].split(":", 1)[1]`
for a present line `i ∈ {1, 2}`, which raises when the line has no colon.
Otherwise the result is `(related, topic, ps)` exactly as computed by the
source. -/
def judgeParse (raw : String) : Option (Bool × String × String) :=
  let lines := pySplitlines raw
  let related :=
    match lines.head? with
    | some l0 => pyEndsWith (pyLower (pyStrip l0)) "yes"
    | none => false
  let topicR : Option String :=
    match lines[1]? with
    | some l1 => (pyAfterColon l1.data).map (fun cs => pyStrip cs.asString)
    | none => some "None"
  let psR : Option String :=
    match lines[2]? with
    | some l2 => (pyAfterColon l2.data).map (fun cs => pyStrip cs.asString)
    | none => some "None"
  match topicR, psR with
  | some topic, some ps => some (related, topic, ps)
  | _, _ => none

/-- Modelled from the spec's description of the parsing (section 4.2):
a *total* parse — line 0 decides the boolean, lines 1 and 2 provide the
topic and product/service after their first colon, defaulting to the
sentinel when absent.  Used as the refinement target for the totality
claim. -/
def judgeParseSpec (raw : String) : Bool × String × String :=
  let lines := pySplitlines raw
  let related :=
    match lines.head? with
    | some l0 => pyEndsWith (pyLower (pyStrip l0)) "yes"
    | none => false
  let topic :=
    match lines[1]? with
    | some l1 =>
      match pyAfterColon l1.data with
      | some cs => pyStrip cs.asString
      | none => "None"
    | none => "None"
  let ps :=
    match lines[2]? with
    | some l2 =>
      match pyAfterColon l2.data with
      | some cs => pyStrip cs.asString
      | none => "None"
    | none => "None"
  (related, topic, ps)

/-- The inputs on which the source parse cannot raise: every present line
among lines 1 and 2 contains a colon. -/
def judgeColonSafe (raw : String) : Bool :=
  (((pySplitlines raw)[1]?).all fun l => (pyAfterColon l.data).isSome) &&
  (((pySplitlines raw)[2]?).all fun l => (pyAfterColon l.data).isSome)

/-- `_judge_topic` end to end: call the gateway on the judge messages (the
gateway strips the accumulated text, source line 57) and parse.  `none`
models a propagated exception, from the transport or from the parse. -/
def judgeTopic (o : CallOracle) (snapshot : String) : Option (Bool × String × String) :=
  match o.judge (judgeMsgs snapshot) with
  | .err => none
  | .ok raw => judgeParse (pyStrip raw)

/-! ## Product Lookup (`AdRecommender._shopping_search`, source lines 97-124) -/

/-- `(results.get("shopping_results") or [{}])[0]` (source line 112). -/
def firstItem : List Entry → Entry
  | [] => {}
  | e :: _ => e

/-- The normalization `_shopping_search` applies to a provider response
(source lines 110-124).  The `try/except` that converts any provider
error or malformed payload into `None` is the `.error => none` case, so
the function is total: it never models a raised exception. -/
def shoppingNormalize : SerpResponse → Option Product
  | .error => none
  | .ok entries =>
    if pyOrElse (firstItem entries).link (firstItem entries).product_link = "" then none
    else some
      { name := ((firstItem entries).title).getD ""
        link := pyOrElse (firstItem entries).link (firstItem entries).product_link
        desc := pySlice160 (pyOrElse (firstItem entries).snippet (firstItem entries).description) ++ "…" }

/-! ## Conversation Orchestrator (`AdRecommender.chat`, source lines 127-174) -/

/-- A Python list slice `l[-n:]` for `n ≤ len(l)`: the last `n` elements. -/
def pyLastN (n : Nat) (l : List String) : List String :=
  l.drop (l.length - n)

def qline (m : String) : String := "Q: " ++ m

def aline (a : String) : String := "A: " ++ a

/-- The buffer after step 1 of `chat` (source lines 129-132): append the
user turn, then trim to the last `MAX_BUFFER_SIZE` lines when the bound is
exceeded. -/
def bufAfterQ (st : AdState) (user_msg : String) : List String :=
  let buf1 := st.buffer ++ [qline user_msg]
  if MAX_BUFFER_SIZE < buf1.length then pyLastN MAX_BUFFER_SIZE buf1 else buf1

/-- The context loop of `chat` (source lines 135-141): consecutive pairs
of buffered lines, each stripped of its 3-character role marker; a lone
trailing line is skipped (`i + 1 < len(self.buffer)`). -/
def pairCtx : List String → List Msg
  | q :: a :: rest =>
    ⟨"user", pyDrop3 q⟩ :: ⟨"assistant", pyDrop3 a⟩ :: pairCtx rest
  | _ => []

/-- The main system instruction of `chat` (source lines 148-152). -/
def mainSysMsg : String :=
  "You are a helpful AI assistant. Format responses using markdown: " ++
  "**bold** for emphasis, *italic* for subtle emphasis, \x60code\x60 for terms, and lists. " ++
  "Preserve any links exactly as provided."

/-- The full message list sent for the primary answer (source lines
144-156). -/
def primaryMsgs (st : AdState) (user_msg : String) : List Msg :=
  ⟨"system", mainSysMsg⟩ :: (pairCtx (bufAfterQ st user_msg) ++ [⟨"user", user_msg⟩])

/-- The snapshot joined from the trailing buffer window (source line 160). -/
def snapshotOf (st : AdState) (user_msg : String) : String :=
  String.intercalate "\n" (pyLastN SNAPSHOT_LINES (bufAfterQ st user_msg))

/-- The recommendation suffix appended to the answer (source lines 165-168). -/
def adSuffix (topic : String) (p : Product) : String :=
  "\n\n▶ Because you\x27ve been talking about **" ++ topic ++
  "**, you might like: [" ++ p.name ++ "](" ++ p.link ++ ") — " ++ p.desc

/-- One `chat` call (source lines 127-174), with the external services
supplied as oracles.  A `.error` result models the exception propagating
out of `chat`; `state` is the state of the instance after the call in
either case (Python performs no rollback). -/
def chat (st : AdState) (user_msg : String) (o : CallOracle) : ChatResult :=
  match o.primary (primaryMsgs st user_msg) with
  | .err => ⟨.error (), ⟨bufAfterQ st user_msg, st.msg_cnt + 1⟩, none, none⟩
  | .ok raw =>
    if st.msg_cnt + 1 = TRIGGER_QS then
      match judgeTopic o (snapshotOf st user_msg) with
      | none =>
        ⟨.error (), ⟨bufAfterQ st user_msg, st.msg_cnt + 1⟩,
         some (snapshotOf st user_msg), none⟩
      | some (related, topic, ps) =>
        if related && (pyLower ps != "none") then
          match shoppingNormalize (o.shopping ps) with
          | some product =>
            ⟨.ok (pyStrip raw ++ adSuffix topic product),
             ⟨bufAfterQ st user_msg ++ [aline (pyStrip raw ++ adSuffix topic product)], 0⟩,
             some (snapshotOf st user_msg), some ps⟩
          | none =>
            ⟨.ok (pyStrip raw),
             ⟨bufAfterQ st user_msg ++ [aline (pyStrip raw)], 0⟩,
             some (snapshotOf st user_msg), some ps⟩
        else
          ⟨.ok (pyStrip raw),
           ⟨bufAfterQ st user_msg ++ [aline (pyStrip raw)], 0⟩,
           some (snapshotOf st user_msg), none⟩
    else
      ⟨.ok (pyStrip raw),
       ⟨bufAfterQ st user_msg ++ [aline (pyStrip raw)], st.msg_cnt + 1⟩, none, none⟩

/-- Whether a `chat` call returned normally. -/
def resIsOk (r : ChatResult) : Bool :=
  match r.res with
  | .ok _ => true
  | .error _ => false

/-- The freshly constructed instance (source lines 67-69). -/
def initState : AdState := ⟨[], 0⟩

/-- Run a sequence of `chat` calls, threading the instance state (also
past raised calls — the Python object survives an exception).  Returns
the final state and, per call, whether the trigger evaluation was
attempted (the Coherence Judge invoked). -/
def runTrace : AdState → List (String × CallOracle) → AdState × List Bool
  | st, [] => (st, [])
  | st, (m, o) :: rest =>
    let r := chat st m o
    let p := runTrace r.state rest
    (p.1, r.snapshotUsed.isSome :: p.2)

/-- A trace in which every call returns normally (no exception). -/
def traceOk : AdState → List (String × CallOracle) → Bool
  | _, [] => true
  | st, (m, o) :: rest =>
    let r := chat st m o
    resIsOk r && traceOk r.state rest

/-- Role of a buffered line: `true` for a user (`"Q:"`) line. -/
def roleQ (s : String) : Bool :=
  s.data.take 2 == ['Q', ':']

/-- Alternation of a buffer: adjacent lines have distinct roles, and the
buffer does not end with a user line (every question is answered). -/
def BufAlt (l : List String) : Prop :=
  (l.map roleQ).Chain' (· ≠ ·) ∧ (l.map roleQ).getLast? ≠ some true

/-! ## Concrete oracles, traces and inputs used by witnesses and counterexamples -/

/-- A benign oracle: every call succeeds, the judge declines coherently. -/
def okOracle : CallOracle where
  primary := fun _ => .ok "ok"
  judge := fun _ => .ok "RELATED: no\nTOPIC: None\nP/S: None"
  shopping := fun _ => .error

/-- An oracle whose primary text generation raises. -/
def errOracle : CallOracle where
  primary := fun _ => .err
  judge := fun _ => .ok "RELATED: no\nTOPIC: None\nP/S: None"
  shopping := fun _ => .error

/-- An oracle whose judge answers with a malformed second line (no colon). -/
def badJudgeOracle : CallOracle where
  primary := fun _ => .ok "ok"
  judge := fun _ => .ok "RELATED: yes\nbad"
  shopping := fun _ => .error

/-- An oracle whose judge affirms coherence but suggests the upper-case
sentinel. -/
def noneJudgeOracle : CallOracle where
  primary := fun _ => .ok "ok"
  judge := fun _ => .ok "RELATED: yes\nTOPIC: shoes\nP/S: NONE"
  shopping := fun _ => .error

/-- 51 benign questions: enough to overflow the 100-line buffer. -/
def calls51 : List (String × CallOracle) := List.replicate 51 ("q", okOracle)

/-- 8 questions whose 4th (trigger) turn fails in the primary generation. -/
def calls8 : List (String × CallOracle) :=
  List.replicate 3 ("q", okOracle) ++ [("q", errOracle)] ++ List.replicate 4 ("q", okOracle)

/-- Two benign questions (for witnesses). -/
def calls2 : List (String × CallOracle) := List.replicate 2 ("q", okOracle)

/-- Four benign questions (for witnesses). -/
def calls4 : List (String × CallOracle) := List.replicate 4 ("q", okOracle)

/-- Three benign questions (reaching the state just before a trigger). -/
def calls3 : List (String × CallOracle) := List.replicate 3 ("q", okOracle)

/-- A reachable state one question before the trigger: three answered
questions, counter 3. -/
def wState : AdState :=
  ⟨["Q: a", "A: b", "Q: c", "A: d", "Q: e", "A: f"], 3⟩

/-- A shopping response with one fully usable entry. -/
def wResp : SerpResponse :=
  .ok [{ title := some "TrailBlazer X", link := some "http://x", snippet := some "good shoes" }]

/-! ## Helper lemmas -/

theorem length_asString (l : List Char) : (l.asString).length = l.length := rfl

theorem roleQ_qline (m : String) : roleQ (qline m) = true := rfl

theorem roleQ_aline (a : String) : roleQ (aline a) = false := rfl

theorem getLast?_drop_or {α : Type} (k : Nat) (l : List α) :
    (l.drop k).getLast? = none ∨ (l.drop k).getLast? = l.getLast? := by
  induction l generalizing k with
  | nil => left; simp
  | cons a t ih =>
    cases k with
    | zero => right; rfl
    | succ k =>
      rw [List.drop_succ_cons]
      rcases ih k with h | h
      · left; exact h
      · cases t with
        | nil => left; simp
        | cons b t2 => right; rw [List.getLast?_cons_cons]; exact h

theorem bufAfterQ_shape (st : AdState) (m : String) :
    ∃ l, bufAfterQ st m = l ++ [qline m] ∧
      (l = st.buffer ∨ ∃ k, l = st.buffer.drop k) := by
  simp only [bufAfterQ, pyLastN]
  split
  · next hgt =>
    have hM : MAX_BUFFER_SIZE = 100 := rfl
    have hlen : (st.buffer ++ [qline m]).length = st.buffer.length + 1 := by simp
    have hk : (st.buffer ++ [qline m]).length - MAX_BUFFER_SIZE ≤ st.buffer.length := by
      omega
    exact ⟨_, List.drop_append_of_le_length hk, Or.inr ⟨_, rfl⟩⟩
  · exact ⟨st.buffer, rfl, Or.inl rfl⟩

theorem pyLastN_getLast_concat (n : Nat) (hn : 1 ≤ n) (l : List String) (x : String) :
    (pyLastN n (l ++ [x])).getLast? = some x := by
  unfold pyLastN
  have hk : (l ++ [x]).length - n ≤ l.length := by simp; omega
  rw [List.drop_append_of_le_length hk, List.getLast?_concat]

theorem chat_primary_err (st : AdState) (m : String) (o : CallOracle)
    (h : o.primary (primaryMsgs st m) = .err) :
    chat st m o = ⟨.error (), ⟨bufAfterQ st m, st.msg_cnt + 1⟩, none, none⟩ := by
  unfold chat
  rw [h]

theorem chat_eq_nontrigger (st : AdState) (m : String) (o : CallOracle) (raw : String)
    (hp : o.primary (primaryMsgs st m) = .ok raw)
    (hc : ¬ st.msg_cnt + 1 = TRIGGER_QS) :
    chat st m o =
      ⟨.ok (pyStrip raw), ⟨bufAfterQ st m ++ [aline (pyStrip raw)], st.msg_cnt + 1⟩,
       none, none⟩ := by
  unfold chat
  rw [hp]
  dsimp only
  rw [if_neg hc]

theorem chat_eq_judgeFail (st : AdState) (m : String) (o : CallOracle) (raw : String)
    (hp : o.primary (primaryMsgs st m) = .ok raw)
    (hc : st.msg_cnt + 1 = TRIGGER_QS)
    (hj : judgeTopic o (snapshotOf st m) = none) :
    chat st m o =
      ⟨.error (), ⟨bufAfterQ st m, st.msg_cnt + 1⟩, some (snapshotOf st m), none⟩ := by
  unfold chat
  rw [hp]
  dsimp only
  rw [if_pos hc, hj]

theorem chat_eq_sentinel (st : AdState) (m : String) (o : CallOracle) (raw : String)
    (related : Bool) (topic ps : String)
    (hp : o.primary (primaryMsgs st m) = .ok raw)
    (hc : st.msg_cnt + 1 = TRIGGER_QS)
    (hj : judgeTopic o (snapshotOf st m) = some (related, topic, ps))
    (hr : ¬ (related && (pyLower ps != "none")) = true) :
    chat st m o =
      ⟨.ok (pyStrip raw), ⟨bufAfterQ st m ++ [aline (pyStrip raw)], 0⟩,
       some (snapshotOf st m), none⟩ := by
  unfold chat
  rw [hp]
  dsimp only
  rw [if_pos hc, hj]
  dsimp only
  rw [if_neg hr]

theorem chat_eq_noProduct (st : AdState) (m : String) (o : CallOracle) (raw : String)
    (related : Bool) (topic ps : String)
    (hp : o.primary (primaryMsgs st m) = .ok raw)
    (hc : st.msg_cnt + 1 = TRIGGER_QS)
    (hj : judgeTopic o (snapshotOf st m) = some (related, topic, ps))
    (hr : (related && (pyLower ps != "none")) = true)
    (hs : shoppingNormalize (o.shopping ps) = none) :
    chat st m o =
      ⟨.ok (pyStrip raw), ⟨bufAfterQ st m ++ [aline (pyStrip raw)], 0⟩,
       some (snapshotOf st m), some ps⟩ := by
  unfold chat
  rw [hp]
  dsimp only
  rw [if_pos hc, hj]
  dsimp only
  rw [if_pos hr, hs]

theorem chat_eq_product (st : AdState) (m : String) (o : CallOracle) (raw : String)
    (related : Bool) (topic ps : String) (product : Product)
    (hp : o.primary (primaryMsgs st m) = .ok raw)
    (hc : st.msg_cnt + 1 = TRIGGER_QS)
    (hj : judgeTopic o (snapshotOf st m) = some (related, topic, ps))
    (hr : (related && (pyLower ps != "none")) = true)
    (hs : shoppingNormalize (o.shopping ps) = some product) :
    chat st m o =
      ⟨.ok (pyStrip raw ++ adSuffix topic product),
       ⟨bufAfterQ st m ++ [aline (pyStrip raw ++ adSuffix topic product)], 0⟩,
       some (snapshotOf st m), some ps⟩ := by
  unfold chat
  rw [hp]
  dsimp only
  rw [if_pos hc, hj]
  dsimp only
  rw [if_pos hr, hs]

theorem chat_ok_spec (st : AdState) (m : String) (o : CallOracle)
    (h : resIsOk (chat st m o) = true) :
    (∃ a, (chat st m o).state.buffer = bufAfterQ st m ++ [aline a]) ∧
    (chat st m o).state.msg_cnt = (if st.msg_cnt + 1 = TRIGGER_QS then 0 else st.msg_cnt + 1) ∧
    (chat st m o).snapshotUsed.isSome = decide (st.msg_cnt + 1 = TRIGGER_QS) := by
  cases hp : o.primary (primaryMsgs st m) with
  | err => rw [chat_primary_err st m o hp] at h; simp [resIsOk] at h
  | ok raw =>
    by_cases hc : st.msg_cnt + 1 = TRIGGER_QS
    · cases hj : judgeTopic o (snapshotOf st m) with
      | none => rw [chat_eq_judgeFail st m o raw hp hc hj] at h; simp [resIsOk] at h
      | some v =>
        obtain ⟨related, topic, ps⟩ := v
        by_cases hr : (related && (pyLower ps != "none")) = true
        · cases hs : shoppingNormalize (o.shopping ps) with
          | some product =>
            rw [chat_eq_product st m o raw related topic ps product hp hc hj hr hs]
            exact ⟨⟨_, rfl⟩, by simp [hc], by simp [hc]⟩
          | none =>
            rw [chat_eq_noProduct st m o raw related topic ps hp hc hj hr hs]
            exact ⟨⟨_, rfl⟩, by simp [hc], by simp [hc]⟩
        · rw [chat_eq_sentinel st m o raw related topic ps hp hc hj hr]
          exact ⟨⟨_, rfl⟩, by simp [hc], by simp [hc]⟩
    · rw [chat_eq_nontrigger st m o raw hp hc]
      exact ⟨⟨_, rfl⟩, by simp [hc], by simp [hc]⟩

theorem BufAlt_nil : BufAlt [] := by
  constructor
  · simp
  · simp

theorem BufAlt_chat (st : AdState) (m : String) (o : CallOracle)
    (h : resIsOk (chat st m o) = true) (hB : BufAlt st.buffer) :
    BufAlt (chat st m o).state.buffer := by
  obtain ⟨⟨a, hbuf⟩, -, -⟩ := chat_ok_spec st m o h
  obtain ⟨l, hl, hcase⟩ := bufAfterQ_shape st m
  have hchain : (l.map roleQ).Chain' (· ≠ ·) := by
    rcases hcase with rfl | ⟨k, rfl⟩
    · exact hB.1
    · rw [List.map_drop]
      exact List.Chain'.drop hB.1 k
  have hlastl : (l.map roleQ).getLast? ≠ some true := by
    rcases hcase with rfl | ⟨k, rfl⟩
    · exact hB.2
    · rw [List.map_drop]
      rcases getLast?_drop_or k (st.buffer.map roleQ) with h0 | h0
      · rw [h0]; simp
      · rw [h0]; exact hB.2
  rw [hbuf, hl]
  have hmap : ((l ++ [qline m]) ++ [aline a]).map roleQ =
      (l.map roleQ ++ [true]) ++ [false] := by
    simp [roleQ_qline, roleQ_aline]
  constructor
  · rw [hmap, List.chain'_append]
    refine ⟨?_, List.chain'_singleton _, ?_⟩
    · rw [List.chain'_append]
      refine ⟨hchain, List.chain'_singleton _, ?_⟩
      intro x hx y hy
      simp only [List.head?_cons, Option.mem_def, Option.some.injEq] at hy
      subst hy
      cases x with
      | false => simp
      | true => exact absurd (Option.mem_def.mp hx) hlastl
    · intro x hx y hy
      simp only [List.head?_cons, Option.mem_def, Option.some.injEq] at hy
      subst hy
      rw [List.getLast?_concat, Option.mem_def, Option.some.injEq] at hx
      subst hx
      simp
  · rw [hmap, List.getLast?_concat]
    simp

theorem BufAlt_runTrace (calls : List (String × CallOracle)) (st : AdState)
    (hB : BufAlt st.buffer) (h : traceOk st calls = true) :
    BufAlt (runTrace st calls).1.buffer := by
  induction calls generalizing st with
  | nil => exact hB
  | cons c rest ih =>
    obtain ⟨m, o⟩ := c
    simp only [traceOk, Bool.and_eq_true] at h
    simp only [runTrace]
    exact ih (chat st m o).state (BufAlt_chat st m o h.1 hB) h.2

theorem runTrace_cadence (calls : List (String × CallOracle)) (st : AdState)
    (hm : st.msg_cnt < TRIGGER_QS) (h : traceOk st calls = true) :
    (runTrace st calls).1.msg_cnt = (st.msg_cnt + calls.length) % TRIGGER_QS ∧
    (runTrace st calls).2 = (List.range calls.length).map
      (fun i => decide ((st.msg_cnt + i + 1) % TRIGGER_QS = 0)) := by
  simp only [TRIGGER_QS] at hm ⊢
  induction calls generalizing st with
  | nil =>
    refine ⟨?_, ?_⟩
    · simp only [runTrace, List.length_nil]
      omega
    · simp [runTrace]
  | cons c rest ih =>
    obtain ⟨m, o⟩ := c
    simp only [traceOk, Bool.and_eq_true] at h
    obtain ⟨h1, h2⟩ := h
    obtain ⟨-, hcnt, hflag⟩ := chat_ok_spec st m o h1
    simp only [TRIGGER_QS] at hcnt hflag
    have hm' : (chat st m o).state.msg_cnt = (st.msg_cnt + 1) % 4 := by
      rw [hcnt]
      split
      · next hc => omega
      · next hc => omega
    have hlt : (chat st m o).state.msg_cnt < 4 := by
      rw [hm']; omega
    obtain ⟨ihA, ihB⟩ := ih (chat st m o).state hlt h2
    simp only [runTrace, List.length_cons]
    constructor
    · rw [ihA, hm']
      omega
    · rw [List.range_succ_eq_map, List.map_cons, List.map_map]
      congr 1
      · rw [hflag]
        exact decide_eq_decide.mpr (by omega)
      · rw [ihB, hm']
        apply List.map_congr_left
        intro i hi
        simp only [Function.comp_apply]
        exact decide_eq_decide.mpr (by omega)

theorem chat_buffer_cases (st : AdState) (m : String) (o : CallOracle) :
    (chat st m o).state.buffer = bufAfterQ st m ∨
    ∃ a, (chat st m o).state.buffer = bufAfterQ st m ++ [aline a] := by
  cases hp : o.primary (primaryMsgs st m) with
  | err => rw [chat_primary_err st m o hp]; left; rfl
  | ok raw =>
    by_cases hc : st.msg_cnt + 1 = TRIGGER_QS
    · cases hj : judgeTopic o (snapshotOf st m) with
      | none => rw [chat_eq_judgeFail st m o raw hp hc hj]; left; rfl
      | some v =>
        obtain ⟨related, topic, ps⟩ := v
        by_cases hr : (related && (pyLower ps != "none")) = true
        · cases hs : shoppingNormalize (o.shopping ps) with
          | some product =>
            rw [chat_eq_product st m o raw related topic ps product hp hc hj hr hs]
            right; exact ⟨_, rfl⟩
          | none =>
            rw [chat_eq_noProduct st m o raw related topic ps hp hc hj hr hs]
            right; exact ⟨_, rfl⟩
        · rw [chat_eq_sentinel st m o raw related topic ps hp hc hj hr]
          right; exact ⟨_, rfl⟩
    · rw [chat_eq_nontrigger st m o raw hp hc]; right; exact ⟨_, rfl⟩

/-! ## Claim theorems -/

set_option maxRecDepth 400000

/-- C1 (counterexample): after 51 benign questions the trimmed buffer
holds an assistant line at even index 0, refuting the claim that after
any number of turns every retained entry at an even index is a user turn
(eviction dropped a single oldest line, not a complete pair). -/
theorem c1_alternation_cex :
    ((runTrace initState calls51).1.buffer.map roleQ).head? = some false := by decide

/-- C1 (amended): in every conversation whose `chat` calls all return
normally, capacity eviction preserves alternation in the adjacency sense:
adjacent retained entries always have distinct user/assistant role
markers, and the buffer never ends with an unanswered question.  The
even-index-is-user form of the claim holds only until the first eviction,
because the trim drops one single oldest line. -/
theorem c1_alternation_amended (calls : List (String × CallOracle))
    (h : traceOk initState calls = true) :
    BufAlt (runTrace initState calls).1.buffer :=
  BufAlt_runTrace calls initState BufAlt_nil h

/-- Witness for C1 at a concrete two-call conversation. -/
theorem c1_alternation_amended_witness :
    traceOk initState calls2 = true ∧ BufAlt (runTrace initState calls2).1.buffer :=
  ⟨by decide, c1_alternation_amended calls2 (by decide)⟩

/-- C2 (counterexample): a judge response whose second line lacks a colon
makes the parse raise (`IndexError` on `split(":", 1)[1]`), refuting the
claim that parsing is total for every response text. -/
theorem c2_parse_total_cex :
    judgeParse "RELATED: yes\nbad" = none := by decide

/-- C2 (amended): parsing never raises on responses whose present lines 1
and 2 each contain a colon — in particular well-formed three-line
responses, truncated responses, the empty response, and responses with
extra lines — and there it returns exactly the spec-side total parse:
the boolean is true iff line 0 (stripped, lowercased) ends with "yes",
and topic and product/service default to "None" when their line is
absent. -/
theorem c2_parse_total_amended (raw : String) (h : judgeColonSafe raw = true) :
    judgeParse raw = some (judgeParseSpec raw) := by
  unfold judgeColonSafe at h
  rw [Bool.and_eq_true] at h
  obtain ⟨h1, h2⟩ := h
  unfold judgeParse judgeParseSpec
  cases hl1 : (pySplitlines raw)[1]? with
  | none =>
    cases hl2 : (pySplitlines raw)[2]? with
    | none => simp [hl1, hl2]
    | some l2 =>
      rw [hl2] at h2
      simp only [Option.all] at h2
      obtain ⟨cs, hcs⟩ := Option.isSome_iff_exists.mp h2
      simp [hl1, hl2, hcs]
  | some l1 =>
    rw [hl1] at h1
    simp only [Option.all] at h1
    obtain ⟨cs1, hcs1⟩ := Option.isSome_iff_exists.mp h1
    cases hl2 : (pySplitlines raw)[2]? with
    | none => simp [hl1, hl2, hcs1]
    | some l2 =>
      rw [hl2] at h2
      simp only [Option.all] at h2
      obtain ⟨cs2, hcs2⟩ := Option.isSome_iff_exists.mp h2
      simp [hl1, hl2, hcs1, hcs2]

/-- Witness for C2 at a concrete well-formed response. -/
theorem c2_parse_total_amended_witness :
    judgeColonSafe "RELATED: yes\nTOPIC: shoes\nP/S: trail shoes" = true ∧
    judgeParse "RELATED: yes\nTOPIC: shoes\nP/S: trail shoes" =
      some (judgeParseSpec "RELATED: yes\nTOPIC: shoes\nP/S: trail shoes") :=
  ⟨by decide, c2_parse_total_amended "RELATED: yes\nTOPIC: shoes\nP/S: trail shoes" (by decide)⟩

/-- C3 (counterexample): on the 4th question of a conversation, a judge
response whose second line lacks a colon makes `chat` raise — the error
surfaces to the caller and the Question Counter stays at `TRIGGER_QS`
instead of resetting to zero. -/
theorem c3_counter_reset_cex :
    resIsOk (chat (runTrace initState calls3).1 "q" badJudgeOracle) = false ∧
    (chat (runTrace initState calls3).1 "q" badJudgeOracle).state.msg_cnt = TRIGGER_QS := by
  decide

/-- C3 (amended): on a trigger turn on which the primary generation
succeeds and the judge returns output the parser handles without raising,
the call returns normally and the Question Counter resets to zero
regardless of the verdict and of the product lookup's outcome; but when
the judge raises (transport failure, or a returned line lacking a colon)
the exception propagates out of `chat` and the counter is not reset. -/
theorem c3_counter_reset_amended (st : AdState) (m : String) (o : CallOracle)
    (raw : String) (v : Bool × String × String)
    (hc : st.msg_cnt + 1 = TRIGGER_QS)
    (hp : o.primary (primaryMsgs st m) = .ok raw)
    (hj : judgeTopic o (snapshotOf st m) = some v) :
    resIsOk (chat st m o) = true ∧ (chat st m o).state.msg_cnt = 0 := by
  obtain ⟨related, topic, ps⟩ := v
  by_cases hr : (related && (pyLower ps != "none")) = true
  · cases hs : shoppingNormalize (o.shopping ps) with
    | some product =>
      rw [chat_eq_product st m o raw related topic ps product hp hc hj hr hs]
      exact ⟨rfl, rfl⟩
    | none =>
      rw [chat_eq_noProduct st m o raw related topic ps hp hc hj hr hs]
      exact ⟨rfl, rfl⟩
  · rw [chat_eq_sentinel st m o raw related topic ps hp hc hj hr]
    exact ⟨rfl, rfl⟩

/-- Witness for C3 at a concrete trigger turn with a declining judge. -/
theorem c3_counter_reset_amended_witness :
    wState.msg_cnt + 1 = TRIGGER_QS ∧
    judgeTopic okOracle (snapshotOf wState "g") = some (false, "None", "None") ∧
    (resIsOk (chat wState "g" okOracle) = true ∧
     (chat wState "g" okOracle).state.msg_cnt = 0) :=
  ⟨by decide, by decide,
   c3_counter_reset_amended wState "g" okOracle "ok" (false, "None", "None")
     (by decide) (by decide) (by decide)⟩

/-- C4 (counterexample): in an 8-question conversation whose 4th (trigger)
turn fails in the primary generation, the counter leaves the range
`[0, TRIGGER_QS)` and sticks, and the trigger never fires — not at
question 4, and (because the trigger test is an equality test) not at
question 8 either. -/
theorem c4_trigger_cadence_cex :
    (runTrace initState calls8).1.msg_cnt = 8 ∧
    (runTrace initState calls8).2 = List.replicate 8 false := by decide

/-- C4 (amended): in every conversation whose `chat` calls all return
normally, the trigger evaluation is attempted exactly on the user
question indices that are positive multiples of `TRIGGER_QS`, and the
Question Counter equals the question count modulo `TRIGGER_QS` (hence
stays in `[0, TRIGGER_QS)`) between calls.  A call that raises on a
trigger turn leaves the counter stuck at `TRIGGER_QS` and the trigger
never fires again. -/
theorem c4_trigger_cadence_amended (calls : List (String × CallOracle))
    (h : traceOk initState calls = true) :
    (runTrace initState calls).1.msg_cnt = calls.length % TRIGGER_QS ∧
    (runTrace initState calls).1.msg_cnt < TRIGGER_QS ∧
    (runTrace initState calls).2 =
      (List.range calls.length).map (fun i => decide ((i + 1) % TRIGGER_QS = 0)) := by
  obtain ⟨hA, hB⟩ := runTrace_cadence calls initState (by decide) h
  have hz : initState.msg_cnt = 0 := rfl
  refine ⟨?_, ?_, ?_⟩
  · rw [hA, hz, Nat.zero_add]
  · rw [hA]
    have hT : TRIGGER_QS = 4 := rfl
    rw [hT]
    omega
  · rw [hB]
    apply List.map_congr_left
    intro i hi
    exact decide_eq_decide.mpr (by rw [hz, Nat.zero_add])

/-- Witness for C4 at a concrete four-call conversation (trigger at 4). -/
theorem c4_trigger_cadence_amended_witness :
    traceOk initState calls4 = true ∧
    ((runTrace initState calls4).1.msg_cnt = calls4.length % TRIGGER_QS ∧
     (runTrace initState calls4).1.msg_cnt < TRIGGER_QS ∧
     (runTrace initState calls4).2 =
       (List.range calls4.length).map (fun i => decide ((i + 1) % TRIGGER_QS = 0))) :=
  ⟨by decide, c4_trigger_cadence_amended calls4 (by decide)⟩

/-- C5 (counterexample): after 51 benign questions the buffer holds
`MAX_BUFFER_SIZE + 1 = 101` entries when the call completes — the
assistant-turn append does not enforce the capacity bound. -/
theorem c5_buffer_bound_cex :
    (runTrace initState calls51).1.buffer.length = MAX_BUFFER_SIZE + 1 := by decide

/-- C5 (amended): after any `chat` call completes (or raises), the buffer
holds at most `MAX_BUFFER_SIZE + 1` entries: only the user-turn append
enforces the `MAX_BUFFER_SIZE` bound, and the assistant-turn append can
then add one entry beyond it. -/
theorem c5_buffer_bound_amended (st : AdState) (m : String) (o : CallOracle) :
    (chat st m o).state.buffer.length ≤ MAX_BUFFER_SIZE + 1 ∧
    (bufAfterQ st m).length ≤ MAX_BUFFER_SIZE := by
  have hb : (bufAfterQ st m).length ≤ MAX_BUFFER_SIZE := by
    simp only [bufAfterQ, pyLastN]
    split
    · next hgt => rw [List.length_drop]; omega
    · next hle => omega
  refine ⟨?_, hb⟩
  rcases chat_buffer_cases st m o with h | ⟨a, h⟩
  · rw [h]; omega
  · rw [h, List.length_append, List.length_singleton]; omega

/-- C6: the Product Lookup is total (any provider error is absorbed into
`none` by construction of the embedding of the `try/except`), and it
returns "no result" exactly when the provider errs, returns no entries,
or the first entry has no usable (non-empty direct or alternate) link;
otherwise it returns the well-formed normalized Product Record. -/
theorem c6_shopping_no_raise (resp : SerpResponse) :
    (shoppingNormalize resp = none ↔
      (resp = .error ∨ ∃ es, resp = .ok es ∧
        (es = [] ∨ pyOrElse (firstItem es).link (firstItem es).product_link = ""))) ∧
    (∀ p, shoppingNormalize resp = some p →
      ∃ es, resp = .ok es ∧
        p.name = ((firstItem es).title).getD "" ∧
        p.link = pyOrElse (firstItem es).link (firstItem es).product_link ∧
        p.link ≠ "" ∧
        p.desc = pySlice160 (pyOrElse (firstItem es).snippet (firstItem es).description) ++ "…") := by
  cases resp with
  | error =>
    constructor
    · simp [shoppingNormalize]
    · intro p hp
      simp [shoppingNormalize] at hp
  | ok es =>
    by_cases hl : pyOrElse (firstItem es).link (firstItem es).product_link = ""
    · have hn : shoppingNormalize (.ok es) = none := by
        simp [shoppingNormalize, hl]
      constructor
      · rw [hn]
        constructor
        · intro _
          exact Or.inr ⟨es, rfl, Or.inr hl⟩
        · intro _
          rfl
      · intro p hp
        rw [hn] at hp
        exact absurd hp (by simp)
    · have hs : shoppingNormalize (.ok es) = some
          { name := ((firstItem es).title).getD ""
            link := pyOrElse (firstItem es).link (firstItem es).product_link
            desc := pySlice160 (pyOrElse (firstItem es).snippet (firstItem es).description) ++ "…" } := by
        simp [shoppingNormalize, hl]
      constructor
      · rw [hs]
        constructor
        · intro hcontra
          exact absurd hcontra (by simp)
        · rintro (he | ⟨es2, he2, hcase⟩)
          · exact SerpResponse.noConfusion he
          · injection he2 with he3
            subst he3
            rcases hcase with rfl | hempty
            · exact absurd rfl hl
            · exact absurd hempty hl
      · intro p hp
        rw [hs] at hp
        injection hp with hp2
        subst hp2
        exact ⟨es, rfl, rfl, rfl, hl, rfl⟩

/-- Witness for C6 at a concrete one-entry response. -/
theorem c6_shopping_no_raise_witness :
    (shoppingNormalize wResp = none ↔
      (wResp = .error ∨ ∃ es, wResp = .ok es ∧
        (es = [] ∨ pyOrElse (firstItem es).link (firstItem es).product_link = ""))) ∧
    (∀ p, shoppingNormalize wResp = some p →
      ∃ es, wResp = .ok es ∧
        p.name = ((firstItem es).title).getD "" ∧
        p.link = pyOrElse (firstItem es).link (firstItem es).product_link ∧
        p.link ≠ "" ∧
        p.desc = pySlice160 (pyOrElse (firstItem es).snippet (firstItem es).description) ++ "…") :=
  c6_shopping_no_raise wResp

/-- C7: every Product Record produced by the lookup has as description the
source description (snippet preferred, long description as fallback)
truncated to at most 160 characters with the ellipsis marker appended
unconditionally, hence at most 161 characters and ending in the marker. -/
theorem c7_desc_bounded (resp : SerpResponse) (p : Product)
    (h : shoppingNormalize resp = some p) :
    p.desc.length ≤ 161 ∧
    (∃ t, p.desc = t ++ "…") ∧
    (∀ es, resp = .ok es →
      p.desc = pySlice160 (pyOrElse (firstItem es).snippet (firstItem es).description) ++ "…") := by
  cases resp with
  | error => simp [shoppingNormalize] at h
  | ok es =>
    by_cases hl : pyOrElse (firstItem es).link (firstItem es).product_link = ""
    · simp [shoppingNormalize, hl] at h
    · simp only [shoppingNormalize, if_neg hl, Option.some.injEq] at h
      subst h
      refine ⟨?_, ⟨_, rfl⟩, ?_⟩
      · show (pySlice160 (pyOrElse (firstItem es).snippet (firstItem es).description) ++ "…").length ≤ 161
        rw [String.length_append]
        have h1 : (pySlice160 (pyOrElse (firstItem es).snippet (firstItem es).description)).length ≤ 160 := by
          unfold pySlice160
          rw [length_asString]
          exact List.length_take_le 160 _
        have h2 : ("…" : String).length = 1 := rfl
        omega
      · intro es2 he
        injection he with he2
        subst he2
        rfl

/-- Witness for C7 at a concrete one-entry response. -/
theorem c7_desc_bounded_witness :
    shoppingNormalize wResp = some ⟨"TrailBlazer X", "http://x", "good shoes…"⟩ ∧
    ((⟨"TrailBlazer X", "http://x", "good shoes…"⟩ : Product).desc.length ≤ 161 ∧
     (∃ t, (⟨"TrailBlazer X", "http://x", "good shoes…"⟩ : Product).desc = t ++ "…") ∧
     (∀ es, wResp = .ok es →
       (⟨"TrailBlazer X", "http://x", "good shoes…"⟩ : Product).desc =
         pySlice160 (pyOrElse (firstItem es).snippet (firstItem es).description) ++ "…")) :=
  ⟨by decide, c7_desc_bounded wResp ⟨"TrailBlazer X", "http://x", "good shoes…"⟩ (by decide)⟩

/-- C8: whenever the trigger fires (counter reaches `TRIGGER_QS` and the
primary generation succeeded), the snapshot handed to the Coherence Judge
is exactly the newline-join of the most recent `SNAPSHOT_LINES = 7`
entries of the buffer as of after the user-turn append; its last line is
the just-appended current question, and when the buffer holds at least 7
entries the window is exactly 7 lines (3 prior Q/A pairs plus the current
question). -/
theorem c8_snapshot_window (st : AdState) (m : String) (o : CallOracle) (raw : String)
    (hc : st.msg_cnt + 1 = TRIGGER_QS)
    (hp : o.primary (primaryMsgs st m) = .ok raw) :
    (chat st m o).snapshotUsed = some (snapshotOf st m) ∧
    snapshotOf st m = String.intercalate "\n" (pyLastN SNAPSHOT_LINES (bufAfterQ st m)) ∧
    (pyLastN SNAPSHOT_LINES (bufAfterQ st m)).getLast? = some (qline m) ∧
    (SNAPSHOT_LINES ≤ (bufAfterQ st m).length →
      (pyLastN SNAPSHOT_LINES (bufAfterQ st m)).length = SNAPSHOT_LINES) := by
  refine ⟨?_, rfl, ?_, ?_⟩
  · cases hj : judgeTopic o (snapshotOf st m) with
    | none => rw [chat_eq_judgeFail st m o raw hp hc hj]
    | some v =>
      obtain ⟨related, topic, ps⟩ := v
      by_cases hr : (related && (pyLower ps != "none")) = true
      · cases hs : shoppingNormalize (o.shopping ps) with
        | some product => rw [chat_eq_product st m o raw related topic ps product hp hc hj hr hs]
        | none => rw [chat_eq_noProduct st m o raw related topic ps hp hc hj hr hs]
      · rw [chat_eq_sentinel st m o raw related topic ps hp hc hj hr]
  · obtain ⟨l, hl, -⟩ := bufAfterQ_shape st m
    rw [hl]
    exact pyLastN_getLast_concat SNAPSHOT_LINES (by decide) l (qline m)
  · intro hlen
    unfold pyLastN
    rw [List.length_drop]
    omega

/-- Witness for C8 at a concrete trigger turn. -/
theorem c8_snapshot_window_witness :
    wState.msg_cnt + 1 = TRIGGER_QS ∧
    ((chat wState "g" okOracle).snapshotUsed = some (snapshotOf wState "g") ∧
     snapshotOf wState "g" =
       String.intercalate "\n" (pyLastN SNAPSHOT_LINES (bufAfterQ wState "g")) ∧
     (pyLastN SNAPSHOT_LINES (bufAfterQ wState "g")).getLast? = some (qline "g") ∧
     (SNAPSHOT_LINES ≤ (bufAfterQ wState "g").length →
       (pyLastN SNAPSHOT_LINES (bufAfterQ wState "g")).length = SNAPSHOT_LINES)) :=
  ⟨by decide, c8_snapshot_window wState "g" okOracle "ok" (by decide) (by decide)⟩

/-- C9: on a trigger turn whose judge verdict parses as
`(related, topic, ps)`, the Product Lookup is invoked — and invoked with
`ps` — if and only if the verdict is coherent and the lowercased
suggestion differs from "none"; so "None", "none" and "NONE" all suppress
the lookup. -/
theorem c9_lookup_sentinel (st : AdState) (m : String) (o : CallOracle) (raw : String)
    (related : Bool) (topic ps : String)
    (hc : st.msg_cnt + 1 = TRIGGER_QS)
    (hp : o.primary (primaryMsgs st m) = .ok raw)
    (hj : judgeTopic o (snapshotOf st m) = some (related, topic, ps)) :
    (chat st m o).lookupQuery =
      (if related && (pyLower ps != "none") then some ps else none) ∧
    ((chat st m o).lookupQuery.isSome = true ↔
      (related = true ∧ pyLower ps ≠ "none")) := by
  have hmain : (chat st m o).lookupQuery =
      (if related && (pyLower ps != "none") then some ps else none) := by
    by_cases hr : (related && (pyLower ps != "none")) = true
    · cases hs : shoppingNormalize (o.shopping ps) with
      | some product =>
        rw [chat_eq_product st m o raw related topic ps product hp hc hj hr hs, if_pos hr]
      | none =>
        rw [chat_eq_noProduct st m o raw related topic ps hp hc hj hr hs, if_pos hr]
    · rw [chat_eq_sentinel st m o raw related topic ps hp hc hj hr, if_neg hr]
  refine ⟨hmain, ?_⟩
  rw [hmain]
  by_cases hr : (related && (pyLower ps != "none")) = true
  · rw [if_pos hr]
    simp only [Option.isSome_some, true_iff]
    rw [Bool.and_eq_true, bne_iff_ne] at hr
    exact hr
  · rw [if_neg hr]
    simp only [Option.isSome_none]
    constructor
    · intro hfalse
      exact absurd hfalse (by simp)
    · rintro ⟨hrel, hne⟩
      exact absurd (by rw [hrel, Bool.true_and, bne_iff_ne]; exact hne) hr

/-- Witness for C9 at a concrete trigger turn where the judge affirms
coherence but suggests the upper-case sentinel "NONE": the lookup is
suppressed. -/
theorem c9_lookup_sentinel_witness :
    wState.msg_cnt + 1 = TRIGGER_QS ∧
    judgeTopic noneJudgeOracle (snapshotOf wState "g") = some (true, "shoes", "NONE") ∧
    ((chat wState "g" noneJudgeOracle).lookupQuery =
       (if true && (pyLower "NONE" != "none") then some "NONE" else none) ∧
     ((chat wState "g" noneJudgeOracle).lookupQuery.isSome = true ↔
       (true = true ∧ pyLower "NONE" ≠ "none"))) :=
  ⟨by decide, by decide,
   c9_lookup_sentinel wState "g" noneJudgeOracle "ok" true "shoes" "NONE"
     (by decide) (by decide) (by decide)⟩

/-- C10: `chat` is not atomic on fatal failure — when the primary
generation raises, the error propagates (`res` is the exception), yet the
just-appended user turn stays at the end of the (possibly trimmed) buffer
and the Question Counter stays incremented: no rollback. -/
theorem c10_not_atomic (st : AdState) (m : String) (o : CallOracle)
    (h : o.primary (primaryMsgs st m) = .err) :
    (chat st m o).res = .error () ∧
    (chat st m o).state.buffer = bufAfterQ st m ∧
    (chat st m o).state.buffer.getLast? = some (qline m) ∧
    (chat st m o).state.msg_cnt = st.msg_cnt + 1 := by
  rw [chat_primary_err st m o h]
  refine ⟨rfl, rfl, ?_, rfl⟩
  show (bufAfterQ st m).getLast? = some (qline m)
  obtain ⟨l, hl, -⟩ := bufAfterQ_shape st m
  rw [hl, List.getLast?_concat]

/-- Witness for C10 at a concrete failing call. -/
theorem c10_not_atomic_witness :
    errOracle.primary (primaryMsgs wState "g") = .err ∧
    ((chat wState "g" errOracle).res = .error () ∧
     (chat wState "g" errOracle).state.buffer = bufAfterQ wState "g" ∧
     (chat wState "g" errOracle).state.buffer.getLast? = some (qline "g") ∧
     (chat wState "g" errOracle).state.msg_cnt = wState.msg_cnt + 1) :=
  ⟨by decide, c10_not_atomic wState "g" errOracle (by decide)⟩
